import Mathlib

/-!
Shallow embedding of the MBR partition-scan code of `src/mbr.c`
(`read_mbr`, `mbr_read`, `struct mbr_block_dev`) together with the
pieces of the surrounding headers it uses.  Machine integers are
modelled as `Nat` with explicit `% 2 ^ 32` where 32-bit overflow
matters; the out-parameters of `read_mbr` are modelled by explicit
state passing (`run_scan`); the parent device's `read` capability and
the filesystem initialisers are taken as function parameters, and the
calls to `vfs_register` are recorded in an output list.
-/

deriving instance DecidableEq for Except

/-- The modulus of `uint32_t` arithmetic, `2 ^ 32`. -/
def two32 : Nat := 4294967296

/-- Modelled from the spec: `read_word` (declared in `util.h`, whose
definition is not among the repository files given) reads 4 bytes at
`offset` as a little-endian unsigned 32-bit value, per spec §4.1
("4 bytes, little-endian unsigned"). -/
def read_word (buf : Nat → Nat) (offset : Nat) : Nat :=
  buf offset + 0x100 * buf (offset + 1) + 0x10000 * buf (offset + 2) +
    0x1000000 * buf (offset + 3)

/-- The fields of `struct block_device` (from `block.h`, used by
`mbr.c`) that the scan reads from the parent device: its name and its
block size.  Its `read` capability is passed separately where needed. -/
structure parent_dev where
  device_name : String
  block_size : Nat
deriving DecidableEq

/-- Embedding of `struct mbr_block_dev` of `src/mbr.c`, flattened with the embedded
`struct block_device` fields that `read_mbr` assigns (`device_name`,
`device_id`, `dev_id_len`, `block_size`).  Byte values are `Nat`. -/
structure mbr_block_dev where
  device_name : String
  device_id : List Nat
  dev_id_len : Nat
  block_size : Nat
  part_no : Nat
  part_id : Nat
  start_block : Nat
  blocks : Nat
deriving DecidableEq

/-- The partition device name built by `read_mbr` (src/mbr.c lines
118-123): the parent's name, then `'_'`, then the character `'0' + i`. -/
def part_dev_name (parent_name : String) (i : Nat) : String :=
  parent_name ++ "_" ++ String.singleton (Char.ofNat (48 + i))

/-- The device `read_mbr` constructs for table slot `i` (src/mbr.c
lines 110-133): entry at byte offset `0x1be + i * 0x10`, type code at
local offset 4, `start_block` at local offset 8, `blocks` at local
offset 12, `block_size` assigned the constant 512 (line 128). -/
def mk_part_dev (parent : parent_dev) (block_0 : Nat → Nat) (i : Nat) :
    mbr_block_dev :=
  { device_name := part_dev_name parent.device_name i
    device_id := [i]
    dev_id_len := 1
    block_size := 512
    part_no := i
    part_id := block_0 (0x1be + i * 0x10 + 4)
    start_block := read_word block_0 (0x1be + i * 0x10 + 8)
    blocks := read_word block_0 (0x1be + i * 0x10 + 12) }

/-- Which driver initialiser the `switch(d->part_id)` of src/mbr.c
lines 143-162 selects. -/
inductive driver_choice : Type where
  | fat : driver_choice
  | ext2 : driver_choice
  | none : driver_choice
deriving DecidableEq

/-- The type codes of the `case` labels that fall through to
`fat_init` (src/mbr.c lines 145-155). -/
def fat_type_codes : List Nat :=
  [0x01, 0x04, 0x06, 0x0b, 0x0c, 0x0e, 0x11, 0x14, 0x1b, 0x1c, 0x1e]

/-- The `switch(d->part_id)` dispatch of src/mbr.c lines 143-162. -/
def driver_switch (code : Nat) : driver_choice :=
  if code ∈ fat_type_codes then driver_choice.fat
  else if code = 0x83 then driver_choice.ext2
  else driver_choice.none

/-- The filesystem (if any) that the driver binding of src/mbr.c lines
143-162 leaves in `d->bd.fs` for slot `i`: the selected initialiser is
applied to the constructed device; a failing or missing initialiser
leaves the field at its `memset`-zeroed value, i.e. `Option.none`. -/
def slot_fs {α : Type} (fat_init ext2_init : mbr_block_dev → Option α)
    (parent : parent_dev) (block_0 : Nat → Nat) (i : Nat) : Option α :=
  match driver_switch (block_0 (0x1be + i * 0x10 + 4)) with
  | driver_choice.fat => fat_init (mk_part_dev parent block_0 i)
  | driver_choice.ext2 => ext2_init (mk_part_dev parent block_0 i)
  | driver_choice.none => Option.none

/-- The `for(int i = 0; i < 4; i++)` loop of src/mbr.c lines 108-167,
over an explicit list of slot indices.  For each slot whose type byte
is non-zero it constructs the device, appends it to the result list
(`parts[cur_p++] = d`), and records the `vfs_register(d->bd.fs)` call
made when the driver initialiser produced a filesystem.  Returns
(devices in slot order, registered filesystems in call order). -/
def scan_loop {α : Type} (fat_init ext2_init : mbr_block_dev → Option α)
    (parent : parent_dev) (block_0 : Nat → Nat) :
    List Nat → List (mbr_block_dev × Option α) × List α
  | [] => ([], [])
  | i :: rest =>
    if block_0 (0x1be + i * 0x10 + 4) ≠ 0 then
      let d := mk_part_dev parent block_0 i
      let fs := slot_fs fat_init ext2_init parent block_0 i
      let tail := scan_loop fat_init ext2_init parent block_0 rest
      ((d, fs) :: tail.1, fs.toList ++ tail.2)
    else
      scan_loop fat_init ext2_init parent block_0 rest

/-- What a successful `read_mbr` leaves behind: the partition device
array (paired with each device's bound filesystem), the value stored
in `*part_count`, and the filesystems passed to `vfs_register`. -/
structure scan_output (α : Type) where
  partitions : List (mbr_block_dev × Option α)
  part_count : Nat
  registered : List α
deriving DecidableEq

/-- Embedding of `read_mbr` of src/mbr.c lines 52-174.  `parent` is the (possibly
null) parent device; `read_ret` and `block_0` are the return value and
the buffer contents of the `block_read(parent, block_0, 512, 0)` call;
`fat_init`/`ext2_init` model the driver initialisers (returning the
filesystem they bind, or nothing on failure/absence).  `Except.error e`
is the early `return e` with `e < 0`; `Except.ok` is the final
`return 0` together with the values stored through the out-parameters. -/
def read_mbr {α : Type} (fat_init ext2_init : mbr_block_dev → Option α)
    (parent : Option parent_dev) (read_ret : Int) (block_0 : Nat → Nat) :
    Except Int (scan_output α) :=
  match parent with
  | Option.none => Except.error (-1)
  | Option.some p =>
    if read_ret < 0 then Except.error read_ret
    else if read_ret ≠ 512 then Except.error (-1)
    else if block_0 0x1fe ≠ 0x55 ∨ block_0 0x1ff ≠ 0xaa then Except.error (-1)
    else
      let r := scan_loop fat_init ext2_init p block_0 (List.range 4)
      Except.ok { partitions := r.1, part_count := r.1.length, registered := r.2 }

/-- A call to `read_mbr` as the caller sees it: the caller's
`*partitions` and `*part_count` start as `parts0` and `count0` and are
written only on the success path (src/mbr.c lines 169-170); the first
component is the `int` return value. -/
def run_scan {α : Type} (fat_init ext2_init : mbr_block_dev → Option α)
    (parent : Option parent_dev) (read_ret : Int) (block_0 : Nat → Nat)
    (parts0 : List (mbr_block_dev × Option α)) (count0 : Nat) :
    Int × List (mbr_block_dev × Option α) × Nat :=
  match read_mbr fat_init ext2_init parent read_ret block_0 with
  | Except.error e => (e, parts0, count0)
  | Except.ok out => (0, out.partitions, out.part_count)

/-- Embedding of `mbr_read` of src/mbr.c lines 176-190.  The buffer is a byte map;
`parent_read` is the parent's `read` capability, returning the `int`
result and the buffer contents after the call.  On a block-size
mismatch the function returns -1 and the buffer is untouched;
otherwise it delegates with the block index translated in `uint32_t`
arithmetic. -/
def mbr_read (dev : mbr_block_dev) (parent_block_size : Nat)
    (parent_read : (Nat → Nat) → Nat → Nat → Int × (Nat → Nat))
    (buf : Nat → Nat) (buf_size : Nat) (starting_block : Nat) :
    Int × (Nat → Nat) :=
  if dev.block_size ≠ parent_block_size then (-1, buf)
  else parent_read buf buf_size ((starting_block + dev.start_block) % two32)

/-- A filesystem initialiser that always fails (used as a concrete
instance of the initialiser parameters). -/
def init_fail : mbr_block_dev → Option Nat := fun _ => Option.none

/-- A filesystem initialiser that always succeeds, binding the
filesystem tagged 7. -/
def init_ok7 : mbr_block_dev → Option Nat := fun _ => Option.some 7

/-- A 512-byte sector: valid signature, entry 0 of type 0x83 with
start LBA 2048, entries 1-3 inactive, all other bytes zero. -/
def sector_one83 : Nat → Nat := fun i =>
  if i = 0x1fe then 0x55
  else if i = 0x1ff then 0xaa
  else if i = 0x1be + 4 then 0x83
  else if i = 0x1be + 9 then 0x08
  else 0

/-- A 512-byte sector with a valid signature and all four entries
inactive (every non-signature byte zero). -/
def sector_empty : Nat → Nat := fun i =>
  if i = 0x1fe then 0x55 else if i = 0x1ff then 0xaa else 0

/-- A 512-byte sector of zeroes: no `0x55 0xaa` signature. -/
def sector_zero : Nat → Nat := fun _ => 0

/-- A parent read capability that returns the block index it was asked
for (used to observe the translated block index). -/
def echo_read : (Nat → Nat) → Nat → Nat → Int × (Nat → Nat) :=
  fun buf _ block => (Int.ofNat block, buf)

/-! ## Helper lemmas -/

/-- The entry offsets written `0x1be + i * 0x10 + k` in the embedding
agree with the spec's `0x1BE + 16 * i + k` form. -/
theorem entry_offset_comm (i k : Nat) :
    0x1be + i * 0x10 + k = 0x1be + 16 * i + k := by ring

/-- The two spellings of the slot-activity filter agree. -/
theorem filter_active_comm (block_0 : Nat → Nat) (l : List Nat) :
    (l.filter fun i => block_0 (0x1be + i * 0x10 + 4) ≠ 0) =
      (l.filter fun i => block_0 (0x1be + 16 * i + 4) ≠ 0) := by
  refine List.filter_congr ?_
  intro a _
  rw [entry_offset_comm]

/-- The device list the loop builds: one device per active slot, in
slot order, paired with the filesystem the driver binding produced. -/
theorem scan_loop_fst {α : Type} (fat_init ext2_init : mbr_block_dev → Option α)
    (parent : parent_dev) (block_0 : Nat → Nat) (l : List Nat) :
    (scan_loop fat_init ext2_init parent block_0 l).1 =
      (l.filter fun i => block_0 (0x1be + i * 0x10 + 4) ≠ 0).map
        (fun i => (mk_part_dev parent block_0 i,
                   slot_fs fat_init ext2_init parent block_0 i)) := by
  induction l with
  | nil => rfl
  | cons i rest ih =>
    by_cases h : block_0 (0x1be + i * 0x10 + 4) ≠ 0
    · simp [scan_loop, List.filter_cons, h, ih]
    · simp [scan_loop, List.filter_cons, h, ih]

/-- The filesystems handed to `vfs_register` are exactly the bound
filesystems of the devices the loop appended, in order. -/
theorem scan_loop_snd {α : Type} (fat_init ext2_init : mbr_block_dev → Option α)
    (parent : parent_dev) (block_0 : Nat → Nat) (l : List Nat) :
    (scan_loop fat_init ext2_init parent block_0 l).2 =
      ((scan_loop fat_init ext2_init parent block_0 l).1).filterMap Prod.snd := by
  induction l with
  | nil => rfl
  | cons i rest ih =>
    by_cases h : block_0 (0x1be + i * 0x10 + 4) ≠ 0
    · cases hfs : slot_fs fat_init ext2_init parent block_0 i <;>
        simp [scan_loop, h, ih, hfs]
    · simp [scan_loop, h, ih]

/-- The constructed device, with every decoded field written in the
spec's `0x1BE + 16 * i` offset form. -/
theorem mk_part_dev_eq (parent : parent_dev) (block_0 : Nat → Nat) (i : Nat) :
    mk_part_dev parent block_0 i =
      { device_name :=
          parent.device_name ++ "_" ++ String.singleton (Char.ofNat (48 + i))
        device_id := [i]
        dev_id_len := 1
        block_size := 512
        part_no := i
        part_id := block_0 (0x1be + 16 * i + 4)
        start_block := block_0 (0x1be + 16 * i + 8) +
          0x100 * block_0 (0x1be + 16 * i + 9) +
          0x10000 * block_0 (0x1be + 16 * i + 10) +
          0x1000000 * block_0 (0x1be + 16 * i + 11)
        blocks := block_0 (0x1be + 16 * i + 12) +
          0x100 * block_0 (0x1be + 16 * i + 13) +
          0x10000 * block_0 (0x1be + 16 * i + 14) +
          0x1000000 * block_0 (0x1be + 16 * i + 15) } := by
  simp only [mk_part_dev, read_word, part_dev_name, mbr_block_dev.mk.injEq,
    true_and, and_true, and_self]
  refine ⟨?_, ?_, ?_⟩ <;> ring_nf

/-- On a present parent, a full 512-byte read and a valid signature,
`read_mbr` succeeds with the loop's results. -/
theorem read_mbr_ok {α : Type} (fat_init ext2_init : mbr_block_dev → Option α)
    (p : parent_dev) (block_0 : Nat → Nat)
    (h55 : block_0 0x1fe = 0x55) (haa : block_0 0x1ff = 0xaa) :
    read_mbr fat_init ext2_init (Option.some p) 512 block_0 =
      Except.ok
        { partitions := (scan_loop fat_init ext2_init p block_0 (List.range 4)).1
          part_count := (scan_loop fat_init ext2_init p block_0 (List.range 4)).1.length
          registered := (scan_loop fat_init ext2_init p block_0 (List.range 4)).2 } := by
  simp only [read_mbr]
  rw [if_neg (by norm_num), if_neg (by norm_num),
    if_neg (by simp [h55, haa])]

/-- On a present parent and a full read, a bad signature makes
`read_mbr` return -1. -/
theorem read_mbr_bad_sig {α : Type} (fat_init ext2_init : mbr_block_dev → Option α)
    (p : parent_dev) (block_0 : Nat → Nat)
    (h : block_0 0x1fe ≠ 0x55 ∨ block_0 0x1ff ≠ 0xaa) :
    read_mbr fat_init ext2_init (Option.some p) 512 block_0 = Except.error (-1) := by
  simp only [read_mbr]
  rw [if_neg (by norm_num), if_neg (by norm_num), if_pos h]

/-- For slots 0-3, the single character `'0' + i` is the decimal digit
string of `i`. -/
theorem digit_char_eq_repr (i : Nat) (hi : i < 4) :
    String.singleton (Char.ofNat (48 + i)) = Nat.repr i := by
  interval_cases i <;> decide

/-! ## The claims -/

/-- C1: for every 512-byte sector read in full from a present parent,
the scan fails (with the no-signature error) iff byte 0x1FE ≠ 0x55 or
byte 0x1FF ≠ 0xAA; on a valid signature it succeeds and the devices it
decodes are exactly those of the 4 fixed 16-byte entries at offsets
`0x1BE + 16 * i` (`i` in `0..4`) whose type code at local offset 4 is
non-zero, each with `start_block` from local offset 8 and `blocks`
from local offset 12 as 4-byte little-endian unsigned values. -/
theorem read_mbr_signature_and_decode {α : Type}
    (fat_init ext2_init : mbr_block_dev → Option α) (p : parent_dev)
    (block_0 : Nat → Nat) :
    (¬ (block_0 0x1fe = 0x55 ∧ block_0 0x1ff = 0xaa) →
      read_mbr fat_init ext2_init (Option.some p) 512 block_0 = Except.error (-1)) ∧
    ((block_0 0x1fe = 0x55 ∧ block_0 0x1ff = 0xaa) →
      ∃ out, read_mbr fat_init ext2_init (Option.some p) 512 block_0 = Except.ok out ∧
        out.partitions.map Prod.fst =
          ((List.range 4).filter fun i => block_0 (0x1be + 16 * i + 4) ≠ 0).map
            (fun i =>
              { device_name :=
                  p.device_name ++ "_" ++ String.singleton (Char.ofNat (48 + i))
                device_id := [i]
                dev_id_len := 1
                block_size := 512
                part_no := i
                part_id := block_0 (0x1be + 16 * i + 4)
                start_block := block_0 (0x1be + 16 * i + 8) +
                  0x100 * block_0 (0x1be + 16 * i + 9) +
                  0x10000 * block_0 (0x1be + 16 * i + 10) +
                  0x1000000 * block_0 (0x1be + 16 * i + 11)
                blocks := block_0 (0x1be + 16 * i + 12) +
                  0x100 * block_0 (0x1be + 16 * i + 13) +
                  0x10000 * block_0 (0x1be + 16 * i + 14) +
                  0x1000000 * block_0 (0x1be + 16 * i + 15) })) := by
  constructor
  · intro h
    refine read_mbr_bad_sig fat_init ext2_init p block_0 ?_
    by_cases h55 : block_0 0x1fe = 0x55
    · exact Or.inr fun haa => h ⟨h55, haa⟩
    · exact Or.inl h55
  · intro hsig
    refine ⟨_, read_mbr_ok fat_init ext2_init p block_0 hsig.1 hsig.2, ?_⟩
    rw [scan_loop_fst, List.map_map, filter_active_comm]
    refine List.map_congr_left ?_
    intro i _
    simpa using mk_part_dev_eq p block_0 i

/-- C2: for a present parent, a full read and a valid signature, the
scan succeeds and returns exactly one device per non-zero type code,
in ascending slot order; the device of slot `i` is named
`parent_name ++ "_" ++ decimal digit of i`, its `device_id` is the
single byte `[i]`, and its `dev_id_len` is 1 (so `k = 0` active slots
yield zero devices with overall success). -/
theorem read_mbr_active_count_names {α : Type}
    (fat_init ext2_init : mbr_block_dev → Option α) (p : parent_dev)
    (block_0 : Nat → Nat)
    (h55 : block_0 0x1fe = 0x55) (haa : block_0 0x1ff = 0xaa) :
    ∃ out, read_mbr fat_init ext2_init (Option.some p) 512 block_0 = Except.ok out ∧
      out.part_count =
        ((List.range 4).filter fun i => block_0 (0x1be + 16 * i + 4) ≠ 0).length ∧
      out.partitions.length = out.part_count ∧
      out.partitions.map (fun x => x.1.part_no) =
        ((List.range 4).filter fun i => block_0 (0x1be + 16 * i + 4) ≠ 0) ∧
      (∀ x ∈ out.partitions,
        x.1.device_name = p.device_name ++ "_" ++ Nat.repr x.1.part_no ∧
        x.1.device_id = [x.1.part_no] ∧
        x.1.dev_id_len = 1) := by
  refine ⟨_, read_mbr_ok fat_init ext2_init p block_0 h55 haa, ?_, rfl, ?_, ?_⟩
  · simp only [scan_loop_fst, List.length_map, filter_active_comm]
  · rw [scan_loop_fst, List.map_map, filter_active_comm]
    have : ((fun x : mbr_block_dev × Option α => x.1.part_no) ∘
        fun i => (mk_part_dev p block_0 i,
          slot_fs fat_init ext2_init p block_0 i)) = fun i => i := by
      funext i
      simp [mk_part_dev]
    rw [this, List.map_id']
  · intro x hx
    rw [scan_loop_fst] at hx
    obtain ⟨i, hi, rfl⟩ := List.mem_map.1 hx
    have hi4 : i < 4 := List.mem_range.1 (List.mem_filter.1 hi).1
    refine ⟨?_, rfl, rfl⟩
    show part_dev_name p.device_name i = _
    rw [part_dev_name, digit_char_eq_repr i hi4]
    rfl

/-- C3 counterexample: a parent with `block_size = 1024` and one
active entry yields a partition device with `block_size = 512`, not
the parent's 1024 — the constructed device's block size is not
inherited from the parent. -/
theorem block_size_not_inherited :
    (read_mbr init_fail init_fail
        (Option.some { device_name := "sda", block_size := 1024 })
        512 sector_one83).map
      (fun out => out.partitions.map fun x => x.1.block_size) =
      Except.ok [512] ∧
    (512 : Nat) ≠ 1024 := by
  constructor
  · decide
  · decide

/-- C3 as amended: every partition device the scan constructs has
`block_size = 512` (the source assigns the constant 512 at line 128),
whatever the parent's block size; it equals the parent's block size
only when that is 512. -/
theorem block_size_always_512 {α : Type}
    (fat_init ext2_init : mbr_block_dev → Option α) (p : parent_dev)
    (read_ret : Int) (block_0 : Nat → Nat) (out : scan_output α)
    (h : read_mbr fat_init ext2_init (Option.some p) read_ret block_0 =
      Except.ok out) :
    ∀ x ∈ out.partitions, x.1.block_size = 512 := by
  intro x hx
  simp only [read_mbr] at h
  split_ifs at h
  injection h with h2
  subst h2
  rw [scan_loop_fst] at hx
  obtain ⟨i, _, rfl⟩ := List.mem_map.1 hx
  rfl

/-- Concrete parent with a 1024-byte block size. -/
def parent_1024 : parent_dev := { device_name := "sda", block_size := 1024 }

/-- The scan output for `parent_1024` over `sector_one83` with both
initialisers failing. -/
def out_one83 : scan_output Nat :=
  { partitions := [(mk_part_dev parent_1024 sector_one83 0, Option.none)]
    part_count := 1
    registered := [] }

/-- C3 amended-claim witness at a concrete input. -/
theorem block_size_always_512_concrete :
    (mk_part_dev parent_1024 sector_one83 0,
      (Option.none : Option Nat)).1.block_size = 512 :=
  block_size_always_512 init_fail init_fail parent_1024 512 sector_one83 out_one83
    (by decide) (mk_part_dev parent_1024 sector_one83 0, Option.none) (by decide)

/-- C4: when the partition device's block size equals the parent's,
`mbr_read` returns exactly what the parent's read returns on the same
buffer and size, at block index `starting_block + start_block`
(computed, as in the source, in `uint32_t` arithmetic), including the
effect on the buffer; no bounds check against `blocks` intervenes. -/
theorem mbr_read_delegates (dev : mbr_block_dev) (parent_block_size : Nat)
    (parent_read : (Nat → Nat) → Nat → Nat → Int × (Nat → Nat))
    (buf : Nat → Nat) (buf_size starting_block : Nat)
    (h : dev.block_size = parent_block_size) :
    mbr_read dev parent_block_size parent_read buf buf_size starting_block =
      parent_read buf buf_size ((starting_block + dev.start_block) % two32) := by
  unfold mbr_read
  rw [if_neg (not_not_intro h)]

/-- The device whose reads the concrete `mbr_read` witnesses exercise:
`block_size` 512 and the largest 32-bit `start_block`. -/
def dev_wrap : mbr_block_dev :=
  { device_name := "sda_0"
    device_id := [0]
    dev_id_len := 1
    block_size := 512
    part_no := 0
    part_id := 0x83
    start_block := 4294967295
    blocks := 16 }

/-- C4 witness at a concrete input. -/
theorem mbr_read_delegates_concrete :
    mbr_read dev_wrap 512 echo_read sector_zero 512 5 =
      echo_read sector_zero 512 ((5 + dev_wrap.start_block) % two32) :=
  mbr_read_delegates dev_wrap 512 echo_read sector_zero 512 5 rfl

/-- C5: when the partition device's block size differs from the
parent's, `mbr_read` returns -1 (the block-size-mismatch error) with
the buffer untouched, and the result does not depend on the parent's
read capability at all — the parent's read is never invoked. -/
theorem mbr_read_size_mismatch (dev : mbr_block_dev) (parent_block_size : Nat)
    (buf : Nat → Nat) (buf_size starting_block : Nat)
    (h : dev.block_size ≠ parent_block_size) :
    ∀ parent_read,
      mbr_read dev parent_block_size parent_read buf buf_size starting_block =
        (-1, buf) := by
  intro parent_read
  unfold mbr_read
  rw [if_pos h]

/-- C5 witness at a concrete input. -/
theorem mbr_read_size_mismatch_concrete :
    mbr_read dev_wrap 1024 echo_read sector_zero 512 5 = (-1, sector_zero) :=
  mbr_read_size_mismatch dev_wrap 1024 sector_zero 512 5 (by decide) echo_read

/-- C6: on every failing input — absent parent, negative return from
the underlying read, a short read, or a missing `0x55 0xAA` signature —
the scan returns a negative error code and leaves the caller's
`*partitions` and `*part_count` exactly as they were: no devices, no
partial results. -/
theorem scan_failure_no_partial {α : Type}
    (fat_init ext2_init : mbr_block_dev → Option α)
    (parent : Option parent_dev) (read_ret : Int) (block_0 : Nat → Nat)
    (parts0 : List (mbr_block_dev × Option α)) (count0 : Nat)
    (h : parent = Option.none ∨ read_ret < 0 ∨ read_ret ≠ 512 ∨
      block_0 0x1fe ≠ 0x55 ∨ block_0 0x1ff ≠ 0xaa) :
    ∃ e : Int, e < 0 ∧
      run_scan fat_init ext2_init parent read_ret block_0 parts0 count0 =
        (e, parts0, count0) := by
  cases parent with
  | none => exact ⟨-1, by norm_num, rfl⟩
  | some p =>
    by_cases hlt : read_ret < 0
    · refine ⟨read_ret, hlt, ?_⟩
      simp only [run_scan, read_mbr]
      rw [if_pos hlt]
    · by_cases h512 : read_ret ≠ 512
      · refine ⟨-1, by norm_num, ?_⟩
        simp only [run_scan, read_mbr]
        rw [if_neg hlt, if_pos h512]
      · have hsig : block_0 0x1fe ≠ 0x55 ∨ block_0 0x1ff ≠ 0xaa := by
          rcases h with h | h | h | h | h
          · exact absurd h (by simp)
          · exact absurd h hlt
          · exact absurd h h512
          · exact Or.inl h
          · exact Or.inr h
        refine ⟨-1, by norm_num, ?_⟩
        simp only [run_scan, read_mbr]
        rw [if_neg hlt, if_neg h512, if_pos hsig]

/-- C6 witness at a concrete input (absent parent). -/
theorem scan_failure_no_partial_concrete :
    ∃ e : Int, e < 0 ∧
      run_scan init_fail init_fail Option.none 512 sector_zero
        ([] : List (mbr_block_dev × Option Nat)) 0 = (e, [], 0) :=
  scan_failure_no_partial init_fail init_fail Option.none 512 sector_zero [] 0
    (Or.inl rfl)

/-- C7: for an active slot, the scan creates the device, and the
driver binding is a function of the type code alone: a code among the
eleven FAT-family codes invokes the FAT initialiser on the constructed
device, code 0x83 invokes the ext2 initialiser, and any other code
invokes no initialiser, leaving the device unbound. -/
theorem driver_binding_by_type_code {α : Type}
    (fat_init ext2_init : mbr_block_dev → Option α) (p : parent_dev)
    (block_0 : Nat → Nat) (i : Nat) (hi : i < 4)
    (hact : block_0 (0x1be + 16 * i + 4) ≠ 0) :
    (mk_part_dev p block_0 i, slot_fs fat_init ext2_init p block_0 i) ∈
      (scan_loop fat_init ext2_init p block_0 (List.range 4)).1 ∧
    (block_0 (0x1be + 16 * i + 4) ∈
        ([0x01, 0x04, 0x06, 0x0b, 0x0c, 0x0e, 0x11, 0x14, 0x1b, 0x1c, 0x1e] :
          List Nat) →
      slot_fs fat_init ext2_init p block_0 i =
        fat_init (mk_part_dev p block_0 i)) ∧
    (block_0 (0x1be + 16 * i + 4) = 0x83 →
      slot_fs fat_init ext2_init p block_0 i =
        ext2_init (mk_part_dev p block_0 i)) ∧
    (block_0 (0x1be + 16 * i + 4) ∉
        ([0x01, 0x04, 0x06, 0x0b, 0x0c, 0x0e, 0x11, 0x14, 0x1b, 0x1c, 0x1e] :
          List Nat) →
      block_0 (0x1be + 16 * i + 4) ≠ 0x83 →
      slot_fs fat_init ext2_init p block_0 i = Option.none) := by
  have hact' : block_0 (0x1be + i * 0x10 + 4) ≠ 0 := by
    rwa [entry_offset_comm]
  refine ⟨?_, ?_, ?_, ?_⟩
  · rw [scan_loop_fst]
    exact List.mem_map_of_mem _
      (List.mem_filter.2 ⟨List.mem_range.2 hi, by simpa using hact'⟩)
  · intro hmem
    have hd : driver_switch (block_0 (0x1be + i * 0x10 + 4)) = driver_choice.fat := by
      rw [entry_offset_comm]
      unfold driver_switch
      rw [if_pos (show block_0 (0x1be + 16 * i + 4) ∈ fat_type_codes from hmem)]
    simp [slot_fs, hd]
  · intro h83
    have hd : driver_switch (block_0 (0x1be + i * 0x10 + 4)) = driver_choice.ext2 := by
      rw [entry_offset_comm, h83]
      decide
    simp [slot_fs, hd]
  · intro hnot hne
    have hd : driver_switch (block_0 (0x1be + i * 0x10 + 4)) = driver_choice.none := by
      rw [entry_offset_comm]
      unfold driver_switch
      rw [if_neg (show ¬ block_0 (0x1be + 16 * i + 4) ∈ fat_type_codes from hnot),
        if_neg hne]
    simp [slot_fs, hd]

/-- A 512-byte sector: valid signature, entry 0 of FAT type 0x0b,
entries 1-3 inactive. -/
def sector_fat0b : Nat → Nat := fun i =>
  if i = 0x1fe then 0x55
  else if i = 0x1ff then 0xaa
  else if i = 0x1be + 4 then 0x0b
  else 0

/-- C7 witness at a concrete input (a FAT-type entry in slot 0). -/
theorem driver_binding_by_type_code_concrete :
    (mk_part_dev { device_name := "sda", block_size := 512 } sector_fat0b 0,
      slot_fs init_ok7 init_fail { device_name := "sda", block_size := 512 }
        sector_fat0b 0) ∈
      (scan_loop init_ok7 init_fail { device_name := "sda", block_size := 512 }
        sector_fat0b (List.range 4)).1 ∧
    (sector_fat0b (0x1be + 16 * 0 + 4) ∈
        ([0x01, 0x04, 0x06, 0x0b, 0x0c, 0x0e, 0x11, 0x14, 0x1b, 0x1c, 0x1e] :
          List Nat) →
      slot_fs init_ok7 init_fail { device_name := "sda", block_size := 512 }
          sector_fat0b 0 =
        init_ok7 (mk_part_dev { device_name := "sda", block_size := 512 }
          sector_fat0b 0)) ∧
    (sector_fat0b (0x1be + 16 * 0 + 4) = 0x83 →
      slot_fs init_ok7 init_fail { device_name := "sda", block_size := 512 }
          sector_fat0b 0 =
        init_fail (mk_part_dev { device_name := "sda", block_size := 512 }
          sector_fat0b 0)) ∧
    (sector_fat0b (0x1be + 16 * 0 + 4) ∉
        ([0x01, 0x04, 0x06, 0x0b, 0x0c, 0x0e, 0x11, 0x14, 0x1b, 0x1c, 0x1e] :
          List Nat) →
      sector_fat0b (0x1be + 16 * 0 + 4) ≠ 0x83 →
      slot_fs init_ok7 init_fail { device_name := "sda", block_size := 512 }
        sector_fat0b 0 = Option.none) :=
  driver_binding_by_type_code init_ok7 init_fail
    { device_name := "sda", block_size := 512 } sector_fat0b 0
    (by decide) (by decide)

/-- C8: on a valid signature the scan reports success; every active
slot whose driver binding produced no filesystem (missing initialiser
or initialiser failure) still contributes its device, unbound, to the
result; and the VFS registrar receives exactly the filesystems the
initialisers produced, in order. -/
theorem unbound_device_still_listed {α : Type}
    (fat_init ext2_init : mbr_block_dev → Option α) (p : parent_dev)
    (block_0 : Nat → Nat)
    (h55 : block_0 0x1fe = 0x55) (haa : block_0 0x1ff = 0xaa) :
    ∃ out, read_mbr fat_init ext2_init (Option.some p) 512 block_0 = Except.ok out ∧
      out.registered = out.partitions.filterMap Prod.snd ∧
      ∀ i, i < 4 → block_0 (0x1be + 16 * i + 4) ≠ 0 →
        slot_fs fat_init ext2_init p block_0 i = Option.none →
        (mk_part_dev p block_0 i, (Option.none : Option α)) ∈ out.partitions := by
  refine ⟨_, read_mbr_ok fat_init ext2_init p block_0 h55 haa, ?_, ?_⟩
  · exact scan_loop_snd fat_init ext2_init p block_0 (List.range 4)
  · intro i hi hact hfail
    have hact' : block_0 (0x1be + i * 0x10 + 4) ≠ 0 := by
      rwa [entry_offset_comm]
    show _ ∈ (scan_loop fat_init ext2_init p block_0 (List.range 4)).1
    rw [scan_loop_fst, ← hfail]
    exact List.mem_map_of_mem _
      (List.mem_filter.2 ⟨List.mem_range.2 hi, by simpa using hact'⟩)

/-- C8 witness at a concrete input: an 0x83 entry whose ext2
initialiser fails. -/
theorem unbound_device_still_listed_concrete :
    ∃ out, read_mbr init_fail init_fail
        (Option.some { device_name := "sda", block_size := 512 })
        512 sector_one83 = Except.ok out ∧
      out.registered = out.partitions.filterMap Prod.snd ∧
      ∀ i, i < 4 → sector_one83 (0x1be + 16 * i + 4) ≠ 0 →
        slot_fs init_fail init_fail { device_name := "sda", block_size := 512 }
          sector_one83 i = Option.none →
        (mk_part_dev { device_name := "sda", block_size := 512 } sector_one83 i,
          (Option.none : Option Nat)) ∈ out.partitions :=
  unbound_device_still_listed init_fail init_fail
    { device_name := "sda", block_size := 512 } sector_one83 (by decide) (by decide)

/-- C9 counterexample: the error result is -1 for an absent parent,
for a missing signature, for a short read, and for an underlying read
error of -1 alike — the three scan-failure kinds cannot be told apart
from the returned value. -/
theorem error_codes_collide :
    read_mbr init_fail init_fail Option.none 512 sector_one83 =
      Except.error (-1) ∧
    read_mbr init_fail init_fail
        (Option.some { device_name := "sda", block_size := 512 })
        512 sector_zero = Except.error (-1) ∧
    read_mbr init_fail init_fail
        (Option.some { device_name := "sda", block_size := 512 })
        100 sector_one83 = Except.error (-1) ∧
    read_mbr init_fail init_fail
        (Option.some { device_name := "sda", block_size := 512 })
        (-1) sector_one83 = Except.error (-1) := by
  refine ⟨?_, ?_, ?_, ?_⟩ <;> decide

/-- C9 as amended: every failure kind yields a negative error code, so
failure as such is detectable, but the kinds are not distinguishable
from the value: an absent parent, a short read and a missing signature
all return -1, while an underlying read error returns the propagated
negative code (which may itself be -1). -/
theorem error_codes_negative {α : Type}
    (fat_init ext2_init : mbr_block_dev → Option α) (p : parent_dev)
    (block_0 : Nat → Nat) (read_ret : Int) (hret : read_ret < 0)
    (hsig : block_0 0x1fe ≠ 0x55 ∨ block_0 0x1ff ≠ 0xaa) :
    read_mbr fat_init ext2_init Option.none 512 block_0 = Except.error (-1) ∧
    read_mbr fat_init ext2_init (Option.some p) read_ret block_0 =
      Except.error read_ret ∧
    read_mbr fat_init ext2_init (Option.some p) 100 block_0 =
      Except.error (-1) ∧
    read_mbr fat_init ext2_init (Option.some p) 512 block_0 =
      Except.error (-1) := by
  refine ⟨rfl, ?_, ?_, ?_⟩
  · simp only [read_mbr]
    rw [if_pos hret]
  · simp only [read_mbr]
    rw [if_neg (by norm_num), if_pos (by norm_num)]
  · exact read_mbr_bad_sig fat_init ext2_init p block_0 hsig

/-- C9 amended-claim witness at a concrete input: with an underlying
error code of -1, all four failures return the identical value -1. -/
theorem error_codes_negative_concrete :
    read_mbr init_fail init_fail Option.none 512 sector_zero =
      Except.error (-1) ∧
    read_mbr init_fail init_fail
        (Option.some { device_name := "sda", block_size := 512 })
        (-1) sector_zero = Except.error (-1) ∧
    read_mbr init_fail init_fail
        (Option.some { device_name := "sda", block_size := 512 })
        100 sector_zero = Except.error (-1) ∧
    read_mbr init_fail init_fail
        (Option.some { device_name := "sda", block_size := 512 })
        512 sector_zero = Except.error (-1) :=
  error_codes_negative init_fail init_fail
    { device_name := "sda", block_size := 512 } sector_zero (-1)
    (by norm_num) (Or.inl (by decide))

/-- C10: with matching block sizes the block index handed to the
parent is `(starting_block + start_block) % 2^32`: `uint32_t`
addition.  When the true sum reaches `2^32` the parent is asked for
the wrapped-around index `starting_block + start_block - 2^32`, which
is strictly below the true sum — the read is not rejected. -/
theorem mbr_read_wraps_mod32 (dev : mbr_block_dev) (parent_block_size : Nat)
    (parent_read : (Nat → Nat) → Nat → Nat → Int × (Nat → Nat))
    (buf : Nat → Nat) (buf_size starting_block : Nat)
    (h : dev.block_size = parent_block_size)
    (hsb : starting_block < two32) (hst : dev.start_block < two32)
    (hsum : two32 ≤ starting_block + dev.start_block) :
    mbr_read dev parent_block_size parent_read buf buf_size starting_block =
      parent_read buf buf_size ((starting_block + dev.start_block) % two32) ∧
    (starting_block + dev.start_block) % two32 =
      starting_block + dev.start_block - two32 ∧
    (starting_block + dev.start_block) % two32 <
      starting_block + dev.start_block := by
  refine ⟨?_, ?_, ?_⟩
  · unfold mbr_read
    rw [if_neg (not_not_intro h)]
  · simp only [two32] at hsb hst hsum ⊢
    omega
  · simp only [two32] at hsb hst hsum ⊢
    omega

/-- C10 witness at a concrete input: `start_block = 2^32 - 1` and
`starting_block = 5` make the parent read block 4. -/
theorem mbr_read_wraps_mod32_concrete :
    mbr_read dev_wrap 512 echo_read sector_zero 512 5 =
      echo_read sector_zero 512 ((5 + dev_wrap.start_block) % two32) ∧
    (5 + dev_wrap.start_block) % two32 = 5 + dev_wrap.start_block - two32 ∧
    (5 + dev_wrap.start_block) % two32 < 5 + dev_wrap.start_block :=
  mbr_read_wraps_mod32 dev_wrap 512 echo_read sector_zero 512 5 rfl
    (by norm_num [two32]) (by norm_num [dev_wrap, two32])
    (by norm_num [dev_wrap, two32])

/-- C2 witness at a concrete input: a valid signature with all four
entries inactive yields zero devices and overall success. -/
theorem read_mbr_all_inactive_scan :
    ∃ out, read_mbr init_fail init_fail
        (Option.some { device_name := "sda", block_size := 512 })
        512 sector_empty = Except.ok out ∧
      out.part_count =
        ((List.range 4).filter fun i => sector_empty (0x1be + 16 * i + 4) ≠ 0).length ∧
      out.partitions.length = out.part_count ∧
      out.partitions.map (fun x => x.1.part_no) =
        ((List.range 4).filter fun i => sector_empty (0x1be + 16 * i + 4) ≠ 0) ∧
      (∀ x ∈ out.partitions,
        x.1.device_name = "sda" ++ "_" ++ Nat.repr x.1.part_no ∧
        x.1.device_id = [x.1.part_no] ∧
        x.1.dev_id_len = 1) :=
  read_mbr_active_count_names init_fail init_fail
    { device_name := "sda", block_size := 512 } sector_empty (by decide) (by decide)
